import Mathlib

/-!
Shallow embedding of the singlestore MCP server (two near-duplicate Python
modules: an HTTP FastAPI front-end `src/src/singlestore_mcp_server/server.py`
and an MCP stdio front-end `src/singlestore_mcp_server/server.py`).

The database and its driver are modelled as an oracle (`Conn`): the metadata
view `information_schema.TABLES` for the current schema is a list of rows,
the raw interpolated `SELECT * FROM <name>` is a function from the table name
to rows-or-error, and arbitrary statement execution (the query executor path)
is a function from statement text and optional bound parameters to a driver
outcome (result set with a column description, affected-row count, or error).

Python control flow is embedded explicitly: each handler body is a function
producing an outcome (normal value or raised exception) together with the
ordered trace of side effects (connection open, statement execution,
connection close); `try/except/finally` is composed on top of the body.
An exception raised in a `finally` block replaces the in-flight one, as in
Python: every handler's `finally: conn.close()` references the local `conn`,
which is unbound when `get_db_connection()` itself raised, so that path
raises `NameError` from the cleanup.  FastAPI maps a raised `HTTPException`
to its status code and any other escaped exception to a 500 response
(`httpStatus` below).
-/

/-- A (simplified) database value: string, integer, binary blob (bytes /
bytearray, kept as a byte list), or SQL NULL / Python None. -/
inductive Value where
  | str (s : String)
  | intV (n : Int)
  | bin (bs : List Nat)
  | null
deriving DecidableEq, Repr

/-- A fetched row with `results_type='dict'`: column name to value, in
column order. -/
abbrev Row : Type := List (String × Value)

/-- A `datetime` value as far as the code uses it: only `isoformat()` is ever
called on it, so it is carried as its ISO-8601 rendering. -/
structure IsoTime where
  iso : String
deriving DecidableEq, Repr

/-- `datetime.isoformat()`. -/
def isoformat (t : IsoTime) : String := t.iso

/-- Parameters as passed to `cursor.execute`: a positional sequence (the
existence check passes the tuple `(resource_id,)`) or a name-keyed mapping
(the query executor passes the request's `parameters` dict). -/
inductive Params where
  | pos (vs : List Value)
  | named (m : List (String × Value))
deriving DecidableEq, Repr

/-- One row of `information_schema.TABLES` restricted to the four selected
columns.  `TABLE_COMMENT` is passed through as a value, `CREATE_TIME` may be
NULL. -/
structure TableMeta where
  tableName : String
  tableType : String
  tableComment : Value
  createTime : Option IsoTime
deriving DecidableEq, Repr

/-- Driver outcome of executing one arbitrary SQL statement:
`resultSet rows` when `cur.description` is non-null (rows then fetched by
`fetchall()`), `affected n` when it is null (`cur.rowcount`), or a raised
driver error. -/
inductive ExecOutcome where
  | resultSet (rows : List Row)
  | affected (n : Int)
  | dbError (msg : String)

/-- An open database connection, as an oracle for the three kinds of
statement the code runs against it. -/
structure Conn where
  /-- Rows of `information_schema.TABLES` for the current schema. -/
  tables : List TableMeta
  /-- Behaviour of the interpolated `SELECT * FROM <resource_id>`. -/
  rawSelect : String → Except String (List Row)
  /-- Behaviour of an arbitrary statement with optionally bound parameters. -/
  runSql : String → Option Params → ExecOutcome

/-- The environment as `get_db_connection` sees it: either `s2.connect`
succeeds and yields a connection, or it raises. -/
structure Driver where
  connect : Option Conn

/-- Python exceptions that can escape the handlers. -/
inductive PyExc where
  | httpExc (status : Nat) (detail : String)
  | valueError (msg : String)
  | nameError
  | dbEx (msg : String)
deriving DecidableEq, Repr

/-- `str(e)` for the exceptions above (starlette's `HTTPException.__str__`
renders `"{status_code}: {detail}"`). -/
def strOfExc : PyExc → String
  | .httpExc s d => toString s ++ ": " ++ d
  | .valueError m => m
  | .nameError => "cannot access local variable conn"
  | .dbEx m => m

/-- Result of running a handler: a normal return or a raised exception. -/
inductive Outcome (α : Type) where
  | ok (a : α)
  | exc (e : PyExc)
deriving DecidableEq, Repr

/-- Observable side effects of a handler, in order. -/
inductive Event where
  | openConn
  | closeConn
  | execSql (sql : String) (ps : Option Params)
deriving DecidableEq, Repr

/-- Outcome of a handler together with its ordered effect trace. -/
abbrev PyResult (α : Type) := Outcome α × List Event

/-- `except Exception as e: raise wrap(e)` around an already-run body. -/
def applyExceptWrap (wrap : PyExc → PyExc) : PyResult α → PyResult α
  | (.ok a, evs) => (.ok a, evs)
  | (.exc e, evs) => (.exc (wrap e), evs)

/-- `finally: conn.close()` around an already-run body.  When `conn` is
bound (the connect succeeded) the close runs and the in-flight result is
kept; when `conn` is unbound the `finally` block itself raises `NameError`,
which replaces the in-flight outcome, as in Python. -/
def applyFinallyClose (connBound : Bool) : PyResult α → PyResult α
  | (r, evs) => if connBound then (r, evs ++ [.closeConn]) else (.exc .nameError, evs)

/-- The exception `get_db_connection` raises when `s2.connect` fails. -/
def connFailExc : PyExc := .httpExc 500 "Database connection failed"

/-- Statement text of the fixed metadata listing query. -/
def listTablesSql : String :=
  "SELECT TABLE_NAME, TABLE_TYPE, TABLE_COMMENT, CREATE_TIME FROM information_schema.TABLES WHERE TABLE_SCHEMA = DATABASE()"

/-- Statement text of the parameterized existence check. -/
def tableExistsSql : String :=
  "SELECT TABLE_NAME FROM information_schema.TABLES WHERE TABLE_SCHEMA = DATABASE() AND TABLE_NAME = %s"

/-- The raw read with the table name interpolated into the statement text. -/
def rawSelectSql (rid : String) : String := "SELECT * FROM " ++ rid

/-- The existence-check execution event for a given resource id. -/
def existEv (rid : String) : Event := .execSql tableExistsSql (some (.pos [.str rid]))

/-- The raw-read execution event for a given resource id. -/
def rawEv (rid : String) : Event := .execSql (rawSelectSql rid) none

/-- `not cur.fetchone()` after the existence check: no metadata row has the
requested table name. -/
def tableAbsent (c : Conn) (rid : String) : Bool :=
  (c.tables.filter (fun t => t.tableName == rid)).isEmpty

/-- `f"<binary data length={len(value)}>"`. -/
def binPlaceholder (n : Nat) : String :=
  "<binary data length=" ++ toString n ++ ">"

/-- Per-value binary conversion: `bytes`/`bytearray` values become the
placeholder string, all other values are kept. -/
def convertValue : Value → Value
  | .bin bs => .str (binPlaceholder bs.length)
  | v => v

/-- The in-place loop over one row's items. -/
def convertRow (row : Row) : Row := row.map (fun kv => (kv.1, convertValue kv.2))

/-- The in-place loop over all fetched rows. -/
def convertRows (rows : List Row) : List Row := rows.map convertRow

/-- Body of the HTTP `GET /resources/{resource_id}` handler (inside the
`try`): open a connection, run the parameterized existence check, raise 404
when no row comes back, otherwise run the interpolated raw read and
post-process binary values. -/
def getResourceBody (drv : Driver) (rid : String) : PyResult (List Row) :=
  match drv.connect with
  | none => (.exc connFailExc, [])
  | some c =>
    let ev0 : List Event := [.openConn, existEv rid]
    if tableAbsent c rid then
      (.exc (.httpExc 404 "Resource not found"), ev0)
    else
      let ev1 := ev0 ++ [rawEv rid]
      match c.rawSelect rid with
      | .error msg => (.exc (.dbEx msg), ev1)
      | .ok rows => (.ok (convertRows rows), ev1)

/-- HTTP `GET /resources/{resource_id}`: the body under
`except Exception as e: raise HTTPException(500, str(e))` and
`finally: conn.close()`.  The returned rows are the `"data"` payload. -/
def get_resource (drv : Driver) (rid : String) : PyResult (List Row) :=
  applyFinallyClose drv.connect.isSome
    (applyExceptWrap (fun e => .httpExc 500 (strOfExc e)) (getResourceBody drv rid))

/-- The adapter-level resource descriptor. -/
structure Resource where
  id : String
  type : String
  attributes : List (String × Value)
deriving DecidableEq, Repr

/-- Mapping of one metadata row to a `Resource`, as in both list handlers:
`created_at` is `CREATE_TIME.isoformat()` when the timestamp is truthy,
else None. -/
def mkResource (t : TableMeta) : Resource :=
  { id := t.tableName
    type := "table"
    attributes :=
      [ ("name", .str t.tableName)
      , ("type", .str t.tableType)
      , ("comment", t.tableComment)
      , ("created_at",
          match t.createTime with
          | some ts => .str (isoformat ts)
          | none => .null) ] }

/-- Shared body of the two list handlers: open a connection, run the fixed
metadata query, map each row to a `Resource` in the returned order. -/
def listResourcesBody (drv : Driver) : PyResult (List Resource) :=
  match drv.connect with
  | none => (.exc connFailExc, [])
  | some c =>
    (.ok (c.tables.map mkResource), [.openConn, .execSql listTablesSql none])

/-- HTTP `GET /resources`: body under
`except Exception as e: raise HTTPException(500, str(e))` and
`finally: conn.close()`. -/
def list_resources (drv : Driver) : PyResult (List Resource) :=
  applyFinallyClose drv.connect.isSome
    (applyExceptWrap (fun e => .httpExc 500 (strOfExc e)) (listResourcesBody drv))

/-- MCP `list_resources` handler: same body, `finally: conn.close()` only
(no `except` clause). -/
def handle_list_resources (drv : Driver) : PyResult (List Resource) :=
  applyFinallyClose drv.connect.isSome (listResourcesBody drv)

/-- The MCP read result: content type plus the rows serialized into the
`{"data": rows}` JSON text (serialization kept structural). -/
structure ResourceContent where
  ctype : String
  payload : List Row
deriving DecidableEq, Repr

/-- Body of the MCP `read_resource` handler: same existence check, but the
absent case raises `ValueError` and the fetched rows are serialized with no
binary post-processing. -/
def readResourceBody (drv : Driver) (rid : String) : PyResult ResourceContent :=
  match drv.connect with
  | none => (.exc connFailExc, [])
  | some c =>
    let ev0 : List Event := [.openConn, existEv rid]
    if tableAbsent c rid then
      (.exc (.valueError "Resource not found"), ev0)
    else
      let ev1 := ev0 ++ [rawEv rid]
      match c.rawSelect rid with
      | .error msg => (.exc (.dbEx msg), ev1)
      | .ok rows => (.ok ⟨"application/json", rows⟩, ev1)

/-- MCP `read_resource`: body under `finally: conn.close()` only. -/
def handle_read_resource (drv : Driver) (rid : String) : PyResult ResourceContent :=
  applyFinallyClose drv.connect.isSome (readResourceBody drv rid)

/-- The query-executor request body (pydantic `QueryRequest` on the HTTP
side, the `arguments` dict on the MCP side). -/
structure QueryRequest where
  query : String
  parameters : Option (List (String × Value))

/-- Python truthiness of `request.parameters` / `arguments.get("parameters")`:
falsy when absent (None) or an empty dict. -/
def paramsTruthy : Option (List (String × Value)) → Bool
  | none => false
  | some [] => false
  | some (_ :: _) => true

/-- The parameters actually handed to `cursor.execute`: the mapping, when
truthy, through the driver's binding mechanism; otherwise nothing (the
statement is executed alone). -/
def queryParams (p : Option (List (String × Value))) : Option Params :=
  if paramsTruthy p then p.map Params.named else none

/-- Result shape of the query executor: exactly one of the two dict shapes
`{"data": rows}` or `{"affected_rows": n}`. -/
inductive QueryResult where
  | data (rows : List Row)
  | affectedRows (n : Int)
deriving DecidableEq, Repr

/-- Shared body of the two query-executor handlers: open a connection,
execute the caller's statement text with the bound parameters (if truthy),
then branch on `cur.description`. -/
def executeQueryBody (drv : Driver) (req : QueryRequest) : PyResult QueryResult :=
  match drv.connect with
  | none => (.exc connFailExc, [])
  | some c =>
    let pOpt := queryParams req.parameters
    let evs : List Event := [.openConn, .execSql req.query pOpt]
    match c.runSql req.query pOpt with
    | .resultSet rows => (.ok (.data rows), evs)
    | .affected n => (.ok (.affectedRows n), evs)
    | .dbError msg => (.exc (.dbEx msg), evs)

/-- HTTP `POST /query`: body under
`except Exception as e: raise HTTPException(400, str(e))` and
`finally: conn.close()`. -/
def execute_query (drv : Driver) (req : QueryRequest) : PyResult QueryResult :=
  applyFinallyClose drv.connect.isSome
    (applyExceptWrap (fun e => .httpExc 400 (strOfExc e)) (executeQueryBody drv req))

/-- One MCP text content block carrying the serialized result dict. -/
structure TextContent where
  ctype : String
  payload : QueryResult
deriving DecidableEq, Repr

/-- Body of the MCP `call_tool` handler once the tool name matched. -/
def callToolBody (drv : Driver) (args : QueryRequest) : PyResult (List TextContent) :=
  match drv.connect with
  | none => (.exc connFailExc, [])
  | some c =>
    let pOpt := queryParams args.parameters
    let evs : List Event := [.openConn, .execSql args.query pOpt]
    match c.runSql args.query pOpt with
    | .resultSet rows => (.ok [⟨"text", .data rows⟩], evs)
    | .affected n => (.ok [⟨"text", .affectedRows n⟩], evs)
    | .dbError msg => (.exc (.dbEx msg), evs)

/-- MCP `call_tool`: an unknown tool name raises `ValueError` before the
`try` block (so before any connection is opened); otherwise the body runs
under `finally: conn.close()`. -/
def handle_call_tool (drv : Driver) (name : String) (args : QueryRequest) :
    PyResult (List TextContent) :=
  if name ≠ "execute_query" then
    (.exc (.valueError ("Unknown tool: " ++ name)), [])
  else
    applyFinallyClose drv.connect.isSome (callToolBody drv args)

/-- HTTP status observed by the caller: a returned value is a 200 response,
a raised `HTTPException` is mapped by FastAPI to its status code, and any
other escaped exception becomes the framework's generic 500 response. -/
def httpStatus : Outcome α → Nat
  | .ok _ => 200
  | .exc (.httpExc s _) => s
  | .exc _ => 500

/-- Number of `openConn` events in a trace. -/
def countOpens : List Event → Nat
  | [] => 0
  | .openConn :: es => countOpens es + 1
  | _ :: es => countOpens es

/-- Number of `closeConn` events in a trace. -/
def countCloses : List Event → Nat
  | [] => 0
  | .closeConn :: es => countCloses es + 1
  | _ :: es => countCloses es

/-! ### Concrete fixtures for evaluations and witnesses -/

/-- A concrete schema holding one table `users` with empty contents. -/
def demoConn : Conn :=
  { tables := [⟨"users", "BASE TABLE", .str "", none⟩]
    rawSelect := fun _ => .ok []
    runSql := fun _ _ => .affected 0 }

/-- A driver whose connect succeeds onto `demoConn`. -/
def demoDriver : Driver := ⟨some demoConn⟩

/-- A schema holding one table `t` with a single row whose only column is a
three-byte binary value. -/
def binConn : Conn :=
  { tables := [⟨"t", "BASE TABLE", .str "", none⟩]
    rawSelect := fun _ => .ok [[("col", .bin [65, 66, 67])]]
    runSql := fun _ _ => .affected 0 }

/-- A driver whose connect succeeds onto `binConn`. -/
def binDriver : Driver := ⟨some binConn⟩

/-- A connection on which every ad-hoc statement fails with a driver error. -/
def errConn : Conn :=
  { tables := []
    rawSelect := fun _ => .error "bad statement"
    runSql := fun _ _ => .dbError "bad statement" }

/-! ### Per-branch characterizations of the six handlers -/

theorem get_resource_connect_fail (rid : String) :
    get_resource ⟨none⟩ rid = (.exc .nameError, []) := rfl

theorem get_resource_absent_eq (c : Conn) (rid : String)
    (h : tableAbsent c rid = true) :
    get_resource ⟨some c⟩ rid =
      (.exc (.httpExc 500 (strOfExc (.httpExc 404 "Resource not found"))),
       [.openConn, existEv rid, .closeConn]) := by
  unfold get_resource getResourceBody applyExceptWrap applyFinallyClose
  simp [h]

theorem get_resource_present_ok (c : Conn) (rid : String) (rows : List Row)
    (h : tableAbsent c rid = false) (hsel : c.rawSelect rid = .ok rows) :
    get_resource ⟨some c⟩ rid =
      (.ok (convertRows rows), [.openConn, existEv rid, rawEv rid, .closeConn]) := by
  unfold get_resource getResourceBody applyExceptWrap applyFinallyClose
  simp [h, hsel]

theorem get_resource_present_err (c : Conn) (rid : String) (msg : String)
    (h : tableAbsent c rid = false) (hsel : c.rawSelect rid = .error msg) :
    get_resource ⟨some c⟩ rid =
      (.exc (.httpExc 500 msg), [.openConn, existEv rid, rawEv rid, .closeConn]) := by
  unfold get_resource getResourceBody applyExceptWrap applyFinallyClose
  simp [h, hsel, strOfExc]

theorem read_resource_connect_fail (rid : String) :
    handle_read_resource ⟨none⟩ rid = (.exc .nameError, []) := rfl

theorem read_resource_absent_eq (c : Conn) (rid : String)
    (h : tableAbsent c rid = true) :
    handle_read_resource ⟨some c⟩ rid =
      (.exc (.valueError "Resource not found"), [.openConn, existEv rid, .closeConn]) := by
  unfold handle_read_resource readResourceBody applyFinallyClose
  simp [h]

theorem read_resource_present_ok (c : Conn) (rid : String) (rows : List Row)
    (h : tableAbsent c rid = false) (hsel : c.rawSelect rid = .ok rows) :
    handle_read_resource ⟨some c⟩ rid =
      (.ok ⟨"application/json", rows⟩,
       [.openConn, existEv rid, rawEv rid, .closeConn]) := by
  unfold handle_read_resource readResourceBody applyFinallyClose
  simp [h, hsel]

theorem read_resource_present_err (c : Conn) (rid : String) (msg : String)
    (h : tableAbsent c rid = false) (hsel : c.rawSelect rid = .error msg) :
    handle_read_resource ⟨some c⟩ rid =
      (.exc (.dbEx msg), [.openConn, existEv rid, rawEv rid, .closeConn]) := by
  unfold handle_read_resource readResourceBody applyFinallyClose
  simp [h, hsel]

theorem list_resources_connect_fail :
    list_resources ⟨none⟩ = (.exc .nameError, []) := rfl

theorem list_resources_eq (c : Conn) :
    list_resources ⟨some c⟩ =
      (.ok (c.tables.map mkResource),
       [.openConn, .execSql listTablesSql none, .closeConn]) := rfl

theorem handle_list_resources_connect_fail :
    handle_list_resources ⟨none⟩ = (.exc .nameError, []) := rfl

theorem handle_list_resources_eq (c : Conn) :
    handle_list_resources ⟨some c⟩ =
      (.ok (c.tables.map mkResource),
       [.openConn, .execSql listTablesSql none, .closeConn]) := rfl

theorem execute_query_connect_fail (req : QueryRequest) :
    execute_query ⟨none⟩ req = (.exc .nameError, []) := rfl

theorem execute_query_result_set (c : Conn) (req : QueryRequest) (rows : List Row)
    (hrun : c.runSql req.query (queryParams req.parameters) = .resultSet rows) :
    execute_query ⟨some c⟩ req =
      (.ok (.data rows),
       [.openConn, .execSql req.query (queryParams req.parameters), .closeConn]) := by
  unfold execute_query executeQueryBody applyExceptWrap applyFinallyClose
  simp [hrun]

theorem execute_query_affected (c : Conn) (req : QueryRequest) (n : Int)
    (hrun : c.runSql req.query (queryParams req.parameters) = .affected n) :
    execute_query ⟨some c⟩ req =
      (.ok (.affectedRows n),
       [.openConn, .execSql req.query (queryParams req.parameters), .closeConn]) := by
  unfold execute_query executeQueryBody applyExceptWrap applyFinallyClose
  simp [hrun]

theorem execute_query_db_error (c : Conn) (req : QueryRequest) (msg : String)
    (hrun : c.runSql req.query (queryParams req.parameters) = .dbError msg) :
    execute_query ⟨some c⟩ req =
      (.exc (.httpExc 400 msg),
       [.openConn, .execSql req.query (queryParams req.parameters), .closeConn]) := by
  unfold execute_query executeQueryBody applyExceptWrap applyFinallyClose
  simp [hrun, strOfExc]

theorem call_tool_unknown_name (drv : Driver) (name : String) (args : QueryRequest)
    (h : name ≠ "execute_query") :
    handle_call_tool drv name args =
      (.exc (.valueError ("Unknown tool: " ++ name)), []) := by
  unfold handle_call_tool
  simp [h]

theorem call_tool_connect_fail (args : QueryRequest) :
    handle_call_tool ⟨none⟩ "execute_query" args = (.exc .nameError, []) := rfl

theorem call_tool_result_set (c : Conn) (args : QueryRequest) (rows : List Row)
    (hrun : c.runSql args.query (queryParams args.parameters) = .resultSet rows) :
    handle_call_tool ⟨some c⟩ "execute_query" args =
      (.ok [⟨"text", .data rows⟩],
       [.openConn, .execSql args.query (queryParams args.parameters), .closeConn]) := by
  unfold handle_call_tool callToolBody applyFinallyClose
  simp [hrun]

theorem call_tool_affected (c : Conn) (args : QueryRequest) (n : Int)
    (hrun : c.runSql args.query (queryParams args.parameters) = .affected n) :
    handle_call_tool ⟨some c⟩ "execute_query" args =
      (.ok [⟨"text", .affectedRows n⟩],
       [.openConn, .execSql args.query (queryParams args.parameters), .closeConn]) := by
  unfold handle_call_tool callToolBody applyFinallyClose
  simp [hrun]

theorem call_tool_db_error (c : Conn) (args : QueryRequest) (msg : String)
    (hrun : c.runSql args.query (queryParams args.parameters) = .dbError msg) :
    handle_call_tool ⟨some c⟩ "execute_query" args =
      (.exc (.dbEx msg),
       [.openConn, .execSql args.query (queryParams args.parameters), .closeConn]) := by
  unfold handle_call_tool callToolBody applyFinallyClose
  simp [hrun]

/-! ### Claim theorems -/

/-- Claim C1 (refuted; the spec states the code's evident intent).  The
`HTTPException(404)` raised for an absent table sits inside the handler's
`try`, and `HTTPException` is an `Exception`, so the blanket
`except Exception as e: raise HTTPException(500, str(e))` catches it and
re-raises it with status 500: the HTTP Table Reader answers 500, never 404,
for a table name absent from the schema.  Evaluated at the concrete absent
name `missing_table` against a schema holding only `users`. -/
theorem get_resource_absent_table_yields_500_not_404 :
    tableAbsent demoConn "missing_table" = true ∧
    (get_resource demoDriver "missing_table").1 =
      .exc (.httpExc 500 (strOfExc (.httpExc 404 "Resource not found"))) ∧
    httpStatus (get_resource demoDriver "missing_table").1 = 500 ∧
    httpStatus (get_resource demoDriver "missing_table").1 ≠ 404 := by
  refine ⟨by decide, by decide, by decide, by decide⟩

/-- Claim C2: on every exit path of all six handlers — normal return,
business error, driver error, and a failed connection open — the trace
balances connection opens with connection closes, so no request ever
finishes with its connection still open (when the open itself fails, no
connection exists and neither event occurs). -/
theorem handlers_never_leak_connections (drv : Driver) (rid : String)
    (req : QueryRequest) (args : QueryRequest) (name : String) :
    countOpens (list_resources drv).2 = countCloses (list_resources drv).2 ∧
    countOpens (get_resource drv rid).2 = countCloses (get_resource drv rid).2 ∧
    countOpens (execute_query drv req).2 = countCloses (execute_query drv req).2 ∧
    countOpens (handle_list_resources drv).2 = countCloses (handle_list_resources drv).2 ∧
    countOpens (handle_read_resource drv rid).2 =
      countCloses (handle_read_resource drv rid).2 ∧
    countOpens (handle_call_tool drv name args).2 =
      countCloses (handle_call_tool drv name args).2 := by
  obtain ⟨oc⟩ := drv
  cases oc with
  | none =>
    refine ⟨rfl, rfl, rfl, rfl, rfl, ?_⟩
    by_cases h : name = "execute_query"
    · subst h; rfl
    · rw [call_tool_unknown_name _ _ _ h]; rfl
  | some c =>
    refine ⟨?_, ?_, ?_, ?_, ?_, ?_⟩
    · rw [list_resources_eq]; rfl
    · cases h : tableAbsent c rid with
      | true => rw [get_resource_absent_eq c rid h]; rfl
      | false =>
        cases hs : c.rawSelect rid with
        | error msg => rw [get_resource_present_err c rid msg h hs]; rfl
        | ok rows => rw [get_resource_present_ok c rid rows h hs]; rfl
    · cases hr : c.runSql req.query (queryParams req.parameters) with
      | resultSet rows => rw [execute_query_result_set c req rows hr]; rfl
      | affected n => rw [execute_query_affected c req n hr]; rfl
      | dbError msg => rw [execute_query_db_error c req msg hr]; rfl
    · rw [handle_list_resources_eq]; rfl
    · cases h : tableAbsent c rid with
      | true => rw [read_resource_absent_eq c rid h]; rfl
      | false =>
        cases hs : c.rawSelect rid with
        | error msg => rw [read_resource_present_err c rid msg h hs]; rfl
        | ok rows => rw [read_resource_present_ok c rid rows h hs]; rfl
    · by_cases h : name = "execute_query"
      · subst h
        cases hr : c.runSql args.query (queryParams args.parameters) with
        | resultSet rows => rw [call_tool_result_set c args rows hr]; rfl
        | affected n => rw [call_tool_affected c args n hr]; rfl
        | dbError msg => rw [call_tool_db_error c args msg hr]; rfl
      · rw [call_tool_unknown_name _ _ _ h]; rfl

/-- Claim C3 counterexample: against the same one-row table whose only
column holds the three bytes `[65, 66, 67]`, the HTTP front-end replaces
the value with the placeholder string but the tool front-end's
`read_resource` hands the raw binary value to serialization unconverted —
the two front-ends do not apply the same post-processing, and on the tool
front-end a binary value is not replaced. -/
theorem mcp_read_resource_keeps_binary_values :
    (get_resource binDriver "t").1 = .ok [[("col", .str "<binary data length=3>")]] ∧
    (handle_read_resource binDriver "t").1 =
      .ok ⟨"application/json", [[("col", .bin [65, 66, 67])]]⟩ := by
  constructor
  · decide
  · decide

/-- Claim C3 amended: on the HTTP front-end every binary column value of a
fetched row is replaced by the placeholder string
`<binary data length=N>` (N the byte length) and every non-binary value is
kept; the tool front-end's `read_resource` applies no such post-processing
and passes the fetched rows through unmodified. -/
theorem http_read_converts_binary_but_mcp_read_does_not
    (c : Conn) (rid : String) (rows : List Row)
    (h : tableAbsent c rid = false) (hsel : c.rawSelect rid = .ok rows) :
    (get_resource ⟨some c⟩ rid).1 = .ok (convertRows rows) ∧
    (handle_read_resource ⟨some c⟩ rid).1 = .ok ⟨"application/json", rows⟩ ∧
    (∀ bs : List Nat, convertValue (.bin bs) = .str (binPlaceholder bs.length)) ∧
    (∀ v : Value, (∀ bs, v ≠ .bin bs) → convertValue v = v) := by
  refine ⟨?_, ?_, fun bs => rfl, ?_⟩
  · rw [get_resource_present_ok c rid rows h hsel]
  · rw [read_resource_present_ok c rid rows h hsel]
  · intro v hv
    cases v with
    | str s => rfl
    | intV n => rfl
    | bin bs => exact absurd rfl (hv bs)
    | null => rfl

/-- Witness for the amended C3 theorem at the concrete binary fixture. -/
theorem http_read_converts_binary_but_mcp_read_does_not_witness :
    tableAbsent binConn "t" = false ∧
    binConn.rawSelect "t" = .ok [[("col", .bin [65, 66, 67])]] ∧
    ((get_resource ⟨some binConn⟩ "t").1 =
        .ok (convertRows [[("col", .bin [65, 66, 67])]]) ∧
      (handle_read_resource ⟨some binConn⟩ "t").1 =
        .ok ⟨"application/json", [[("col", .bin [65, 66, 67])]]⟩ ∧
      (∀ bs : List Nat, convertValue (.bin bs) = .str (binPlaceholder bs.length)) ∧
      (∀ v : Value, (∀ bs, v ≠ .bin bs) → convertValue v = v)) :=
  ⟨by decide, rfl,
    http_read_converts_binary_but_mcp_read_does_not binConn "t"
      [[("col", .bin [65, 66, 67])]] (by decide) rfl⟩

/-- Claim C4: a failed connection open surfaces to the HTTP caller as
status 500 on all three routes (on the failed-open path the `finally`
block's `conn.close()` hits an unbound local, and the escaping exception is
mapped by the framework to its generic 500 response), while a statement
execution failure on `POST /query` is caught by that handler's
`except` clause and surfaces as status 400. -/
theorem conn_failure_maps_to_500_exec_failure_to_400
    (rid : String) (req : QueryRequest) (c : Conn) (msg : String)
    (hrun : c.runSql req.query (queryParams req.parameters) = .dbError msg) :
    httpStatus (list_resources ⟨none⟩).1 = 500 ∧
    httpStatus (get_resource ⟨none⟩ rid).1 = 500 ∧
    httpStatus (execute_query ⟨none⟩ req).1 = 500 ∧
    httpStatus (execute_query ⟨some c⟩ req).1 = 400 := by
  refine ⟨rfl, rfl, rfl, ?_⟩
  rw [execute_query_db_error c req msg hrun]
  rfl

/-- Witness for the C4 theorem: a driver on which every statement fails. -/
theorem conn_failure_maps_to_500_exec_failure_to_400_witness :
    errConn.runSql "BROKEN SQL" (queryParams none) = .dbError "bad statement" ∧
    (httpStatus (list_resources ⟨none⟩).1 = 500 ∧
      httpStatus (get_resource ⟨none⟩ "users").1 = 500 ∧
      httpStatus (execute_query ⟨none⟩ ⟨"BROKEN SQL", none⟩).1 = 500 ∧
      httpStatus (execute_query ⟨some errConn⟩ ⟨"BROKEN SQL", none⟩).1 = 400) :=
  ⟨rfl, conn_failure_maps_to_500_exec_failure_to_400 "users" ⟨"BROKEN SQL", none⟩
      errConn "bad statement" rfl⟩

/-- Claim C5: on both front-ends, when the driver reports a column
description the handler returns exactly the `data` shape holding all
fetched rows, when it reports none the handler returns exactly the
`affected_rows` shape holding the driver's count, and the two shapes are
distinct, so exactly one is ever returned. -/
theorem query_executor_result_shape (c : Conn) (req : QueryRequest) (args : QueryRequest) :
    (∀ rows, c.runSql req.query (queryParams req.parameters) = .resultSet rows →
      (execute_query ⟨some c⟩ req).1 = .ok (.data rows)) ∧
    (∀ n, c.runSql req.query (queryParams req.parameters) = .affected n →
      (execute_query ⟨some c⟩ req).1 = .ok (.affectedRows n)) ∧
    (∀ rows, c.runSql args.query (queryParams args.parameters) = .resultSet rows →
      (handle_call_tool ⟨some c⟩ "execute_query" args).1 = .ok [⟨"text", .data rows⟩]) ∧
    (∀ n, c.runSql args.query (queryParams args.parameters) = .affected n →
      (handle_call_tool ⟨some c⟩ "execute_query" args).1 = .ok [⟨"text", .affectedRows n⟩]) ∧
    (∀ rows n, QueryResult.data rows ≠ QueryResult.affectedRows n) := by
  refine ⟨?_, ?_, ?_, ?_, ?_⟩
  · intro rows h; rw [execute_query_result_set c req rows h]
  · intro n h; rw [execute_query_affected c req n h]
  · intro rows h; rw [call_tool_result_set c args rows h]
  · intro n h; rw [call_tool_affected c args n h]
  · intro rows n h; exact QueryResult.noConfusion h

/-- Witness for the C5 theorem on the demo driver, whose statements report
no column description and affect zero rows. -/
theorem query_executor_result_shape_witness :
    demoConn.runSql "DELETE FROM users" (queryParams none) = .affected 0 ∧
    (execute_query ⟨some demoConn⟩ ⟨"DELETE FROM users", none⟩).1 =
      .ok (.affectedRows 0) :=
  ⟨rfl, (query_executor_result_shape demoConn ⟨"DELETE FROM users", none⟩
      ⟨"DELETE FROM users", none⟩).2.1 0 rfl⟩

/-- Claim C6: on both front-ends the parameterized existence check is the
first statement run, and when the table is absent the request fails with a
not-found error (404 `HTTPException` in the HTTP body, `ValueError` in the
tool body) with the raw interpolated read never executed; when the table is
present the trace is exactly open, existence check, raw read, close, so the
check always precedes the raw read. -/
theorem existence_check_precedes_raw_read (c : Conn) (rid : String) :
    (tableAbsent c rid = true →
      (getResourceBody ⟨some c⟩ rid).1 = .exc (.httpExc 404 "Resource not found") ∧
      (readResourceBody ⟨some c⟩ rid).1 = .exc (.valueError "Resource not found") ∧
      (get_resource ⟨some c⟩ rid).2 = [.openConn, existEv rid, .closeConn] ∧
      (handle_read_resource ⟨some c⟩ rid).2 = [.openConn, existEv rid, .closeConn] ∧
      rawEv rid ∉ (get_resource ⟨some c⟩ rid).2 ∧
      rawEv rid ∉ (handle_read_resource ⟨some c⟩ rid).2) ∧
    (tableAbsent c rid = false →
      (get_resource ⟨some c⟩ rid).2 = [.openConn, existEv rid, rawEv rid, .closeConn] ∧
      (handle_read_resource ⟨some c⟩ rid).2 =
        [.openConn, existEv rid, rawEv rid, .closeConn]) := by
  constructor
  · intro h
    have hg := get_resource_absent_eq c rid h
    have hr := read_resource_absent_eq c rid h
    refine ⟨?_, ?_, ?_, ?_, ?_, ?_⟩
    · unfold getResourceBody; simp [h]
    · unfold readResourceBody; simp [h]
    · rw [hg]
    · rw [hr]
    · rw [hg]; simp [rawEv, existEv]
    · rw [hr]; simp [rawEv, existEv]
  · intro h
    constructor
    · cases hs : c.rawSelect rid with
      | error msg => rw [get_resource_present_err c rid msg h hs]
      | ok rows => rw [get_resource_present_ok c rid rows h hs]
    · cases hs : c.rawSelect rid with
      | error msg => rw [read_resource_present_err c rid msg h hs]
      | ok rows => rw [read_resource_present_ok c rid rows h hs]

/-- Witness for the C6 theorem at the concrete absent name `missing_table`
against the demo schema. -/
theorem existence_check_precedes_raw_read_witness :
    tableAbsent demoConn "missing_table" = true ∧
    ((getResourceBody ⟨some demoConn⟩ "missing_table").1 =
        .exc (.httpExc 404 "Resource not found") ∧
      (readResourceBody ⟨some demoConn⟩ "missing_table").1 =
        .exc (.valueError "Resource not found") ∧
      (get_resource ⟨some demoConn⟩ "missing_table").2 =
        [.openConn, existEv "missing_table", .closeConn] ∧
      (handle_read_resource ⟨some demoConn⟩ "missing_table").2 =
        [.openConn, existEv "missing_table", .closeConn] ∧
      rawEv "missing_table" ∉ (get_resource ⟨some demoConn⟩ "missing_table").2 ∧
      rawEv "missing_table" ∉ (handle_read_resource ⟨some demoConn⟩ "missing_table").2) :=
  ⟨by decide,
    (existence_check_precedes_raw_read demoConn "missing_table").1 (by decide)⟩

/-- Claim C7: a tool invocation with any name other than `execute_query`
fails with the explicit `Unknown tool` error naming the tool, raised before
the `try` block, so nothing is executed: the effect trace is empty. -/
theorem unknown_tool_name_fails_explicitly (drv : Driver) (name : String)
    (args : QueryRequest) (h : name ≠ "execute_query") :
    handle_call_tool drv name args =
      (.exc (.valueError ("Unknown tool: " ++ name)), []) := by
  unfold handle_call_tool
  simp [h]

/-- Witness for the C7 theorem at the concrete unknown name `list_tables`. -/
theorem unknown_tool_name_fails_explicitly_witness :
    ("list_tables" : String) ≠ "execute_query" ∧
    handle_call_tool demoDriver "list_tables" ⟨"SELECT 1", none⟩ =
      (.exc (.valueError ("Unknown tool: " ++ "list_tables")), []) :=
  ⟨by decide,
    unknown_tool_name_fails_explicitly demoDriver "list_tables" ⟨"SELECT 1", none⟩
      (by decide)⟩

/-- Claim C8: every statement-execution event in a query-executor trace, on
either front-end, carries exactly the caller-supplied query string as its
statement text, with the parameters carried separately through the driver's
binding slot: nothing is ever concatenated into the text; when the
parameters are not truthy the statement is executed with no bound
parameters at all, and when a mapping is supplied and truthy it is passed
through the binding slot as given. -/
theorem driver_receives_verbatim_statement_text (c : Conn)
    (req : QueryRequest) (args : QueryRequest) (s : String) (ps : Option Params) :
    (Event.execSql s ps ∈ (execute_query ⟨some c⟩ req).2 →
      s = req.query ∧ ps = queryParams req.parameters) ∧
    (Event.execSql s ps ∈ (handle_call_tool ⟨some c⟩ "execute_query" args).2 →
      s = args.query ∧ ps = queryParams args.parameters) ∧
    (paramsTruthy req.parameters = false → queryParams req.parameters = none) ∧
    (∀ m, req.parameters = some m → paramsTruthy req.parameters = true →
      queryParams req.parameters = some (.named m)) := by
  refine ⟨?_, ?_, ?_, ?_⟩
  · intro hmem
    cases hr : c.runSql req.query (queryParams req.parameters) with
    | resultSet rows =>
      rw [execute_query_result_set c req rows hr] at hmem
      simp at hmem
      exact hmem
    | affected n =>
      rw [execute_query_affected c req n hr] at hmem
      simp at hmem
      exact hmem
    | dbError msg =>
      rw [execute_query_db_error c req msg hr] at hmem
      simp at hmem
      exact hmem
  · intro hmem
    cases hr : c.runSql args.query (queryParams args.parameters) with
    | resultSet rows =>
      rw [call_tool_result_set c args rows hr] at hmem
      simp at hmem
      exact hmem
    | affected n =>
      rw [call_tool_affected c args n hr] at hmem
      simp at hmem
      exact hmem
    | dbError msg =>
      rw [call_tool_db_error c args msg hr] at hmem
      simp at hmem
      exact hmem
  · intro h
    unfold queryParams
    simp [h]
  · intro m hm h
    unfold queryParams
    rw [hm] at h ⊢
    simp [h]

/-- Witness for the C8 theorem: the one execution event in a concrete trace
carries the caller's literal statement text and no bound parameters. -/
theorem driver_receives_verbatim_statement_text_witness :
    Event.execSql "SELECT 1" none ∈
      (execute_query ⟨some demoConn⟩ ⟨"SELECT 1", none⟩).2 ∧
    ("SELECT 1" = (QueryRequest.mk "SELECT 1" none).query ∧
      (none : Option Params) = queryParams (QueryRequest.mk "SELECT 1" none).parameters) :=
  ⟨by decide,
    (driver_receives_verbatim_statement_text demoConn ⟨"SELECT 1", none⟩
        ⟨"SELECT 1", none⟩ "SELECT 1" none).1 (by decide)⟩

/-- Claim C9: on both front-ends the lister returns, in database row order,
exactly one `Resource` per metadata row, whose id is the table name, whose
type is the constant `table`, and whose attributes carry the name, the
declared table type, the comment, and `created_at` as the creation
timestamp's ISO-8601 rendering or null when the timestamp is absent. -/
theorem list_resources_maps_rows_in_order (c : Conn) :
    (list_resources ⟨some c⟩).1 = .ok (c.tables.map mkResource) ∧
    (handle_list_resources ⟨some c⟩).1 = .ok (c.tables.map mkResource) ∧
    (∀ t, mkResource t =
      { id := t.tableName
        type := "table"
        attributes :=
          [ ("name", .str t.tableName)
          , ("type", .str t.tableType)
          , ("comment", t.tableComment)
          , ("created_at",
              match t.createTime with
              | some ts => .str (isoformat ts)
              | none => .null) ] }) :=
  ⟨rfl, rfl, fun _ => rfl⟩

/-- Claim C10: a request whose parameters field is an empty mapping is
handled identically, in outcome and in effect trace, to one whose
parameters are omitted, on both front-ends: the empty mapping is falsy, so
the statement is executed with nothing in the driver's binding slot. -/
theorem empty_parameters_treated_as_omitted (drv : Driver) (q : String) :
    execute_query drv ⟨q, some []⟩ = execute_query drv ⟨q, none⟩ ∧
    handle_call_tool drv "execute_query" ⟨q, some []⟩ =
      handle_call_tool drv "execute_query" ⟨q, none⟩ ∧
    queryParams (some []) = none := by
  obtain ⟨oc⟩ := drv
  cases oc with
  | none => exact ⟨rfl, rfl, rfl⟩
  | some c => exact ⟨rfl, rfl, rfl⟩
